import Mathlib

/-!
Verification of the activity-analytics core of GitHub-Stat-Checker.

The definitions below are a shallow embedding of the Python modules
`github_stats.py` (contribution processing: streaks, highest contribution)
and `github_activity_predictions.py` (trend, burnout, consistency,
longevity and milestone predictions).  Python floats are modelled as exact
rationals; Python exceptions that the source catches are modelled by the
fallback value the handler assigns; the sentinel `float('inf')` is a
dedicated constructor.
-/

set_option autoImplicit false

/-- Rational model of Python `round(x, d)` (round to `d` decimal places).
Modelled as exact rounding to the nearest multiple of `10 ^ (-d)` using
Mathlib `round` (ties go up); the Python original resolves ties to even on
binary floats, and every concrete value used below lies strictly between two
midpoints, where the two rules agree. -/
def roundTo (q : ℚ) (d : ℕ) : ℚ := (round (q * 10 ^ d) : ℚ) / 10 ^ d

/-- One record of `week['contributionDays']` in the API payload: a `date`
string and the `contributionCount` field; `none` models a record from which
that key is missing. -/
structure Day where
  date : String
  contributionCount : Option ℕ
  deriving DecidableEq

/-- Input shape of `process_contribution_data` (the fields the function
reads): the nested weeks of contribution days, the calendar total and the
restricted contribution count. -/
structure ContribData where
  weeks : List (List Day)
  totalContributions : ℕ
  restrictedContributionsCount : ℕ
  deriving DecidableEq

/-- Output record of `process_contribution_data`. -/
structure ContributionStats where
  total_contributions : ℕ
  public_contributions : ℕ
  private_contributions : ℕ
  highest_contribution : ℕ
  current_streak : ℕ
  longest_streak : ℕ
  days : List Day
  deriving DecidableEq

/-- Python: `max(day['contributionCount'] for day in days)` inside
`try ... except (ValueError, KeyError): highest_contribution = 0`.
An empty list raises ValueError and a record missing the key raises
KeyError; either way the handler sets this one statistic to 0. -/
def highest_contribution (days : List Day) : ℕ :=
  if days.isEmpty ∨ days.any (fun d => d.contributionCount.isNone) then 0
  else (days.map (fun d => d.contributionCount.getD 0)).foldl max 0

/-- One iteration of the streak loop of `process_contribution_data`:
`if day.get('contributionCount', 0) > 0: current_streak += 1;
longest_streak = max(longest_streak, current_streak) else: current_streak = 0`.
The state is the pair `(current_streak, longest_streak)`. -/
def streakStep (s : ℕ × ℕ) (c : ℕ) : ℕ × ℕ :=
  if 0 < c then (s.1 + 1, max s.2 (s.1 + 1)) else (0, s.2)

/-- The whole streak loop, started from `(0, 0)` as in the source. -/
def computeStreaks (counts : List ℕ) : ℕ × ℕ :=
  counts.foldl streakStep (0, 0)

/-- The count list the streak loop reads: `day.get('contributionCount', 0)`
for each flattened day, a missing key read as 0. -/
def dayCounts (days : List Day) : List ℕ :=
  days.map (fun d => d.contributionCount.getD 0)

/-- Python `process_contribution_data` on a payload that has the expected
nested keys: flattens the weeks, sums public and private contributions,
and computes the highest contribution and both streaks. -/
def process_contribution_data (data : ContribData) : ContributionStats :=
  let days := data.weeks.flatten
  let public_contributions := data.totalContributions
  let private_contributions := data.restrictedContributionsCount
  let total_contributions := public_contributions + private_contributions
  let s := computeStreaks (dayCounts days)
  { total_contributions := total_contributions
    public_contributions := public_contributions
    private_contributions := private_contributions
    highest_contribution := highest_contribution days
    current_streak := s.1
    longest_streak := s.2
    days := days }

/-- Length of the maximal trailing run of strictly positive counts. -/
def trailingRun (counts : List ℕ) : ℕ :=
  (counts.reverse.takeWhile (fun c => decide (0 < c))).length

/-- Output record of `predict_long_term_activity`. -/
structure LongTermActivity where
  lifetime_rate : ℚ
  current_rate : ℚ
  trend : String
  deriving DecidableEq

/-- Python `predict_long_term_activity`: the trend is decided by comparing
the raw rates, and only the two returned rate fields are rounded. -/
def predict_long_term_activity (total_contributions github_days
    current_year_contributions active_days : ℕ) : LongTermActivity :=
  if github_days = 0 ∨ active_days = 0 then ⟨0, 0, "insufficient data"⟩
  else
    let lifetime_rate : ℚ := (total_contributions : ℚ) / (github_days : ℚ)
    let current_rate : ℚ := (current_year_contributions : ℚ) / (active_days : ℚ)
    let trend : String :=
      if current_rate > lifetime_rate then "increasing"
      else if current_rate = lifetime_rate then "stable"
      else "decreasing"
    ⟨roundTo lifetime_rate 2, roundTo current_rate 2, trend⟩

/-- Year-over-year percent changes of `predict_burnout`:
`(curr - prev) / prev * 100 if prev > 0 else 0` over `zip(xs[:-1], xs[1:])`. -/
def pctChanges (xs : List ℕ) : List ℚ :=
  List.zipWith
    (fun curr prev =>
      if 0 < prev then ((curr : ℚ) - (prev : ℚ)) / (prev : ℚ) * 100 else 0)
    xs.dropLast xs.tail

/-- Average of the percent changes, as formed inside `predict_burnout`. -/
def avgPctChange (xs : List ℕ) : ℚ :=
  (pctChanges xs).sum / ((pctChanges xs).length : ℚ)

/-- Python `predict_burnout`: classifies the average year-over-year percent
change of the per-year active-day counts (most recent first). -/
def predict_burnout (active_days_by_year : List ℕ) : String :=
  if active_days_by_year.length < 2 then "Insufficient data for burnout prediction"
  else
    let avg_change := avgPctChange active_days_by_year
    if avg_change < -20 then "Significant decrease in activity, potential burnout risk"
    else if avg_change < -5 then "Activity is gradually decreasing"
    else if avg_change > 20 then "Activity is significantly increasing"
    else if avg_change > 5 then "Activity is gradually increasing"
    else "Activity is stable"

/-- Python `predict_consistency`: returns the rounded consistency score and
a classification decided from the unrounded score. -/
def predict_consistency (active_days github_days : ℕ) : ℚ × String :=
  if github_days = 0 then (0, "No activity")
  else
    let consistency_score : ℚ := ((active_days : ℚ) / (github_days : ℚ)) * 100
    let classification : String :=
      if consistency_score ≥ 80 then "Highly consistent contributor"
      else if consistency_score ≥ 50 then "Regular contributor"
      else if consistency_score ≥ 25 then "Occasional contributor"
      else "Sporadic contributor"
    (roundTo consistency_score 1, classification)

/-- Fractional year-over-year changes of `predict_account_longevity`:
`(curr - prev) / prev if prev > 0 else 0` over `zip(xs[:-1], xs[1:])`. -/
def yearlyChanges (xs : List ℕ) : List ℚ :=
  List.zipWith
    (fun curr prev =>
      if 0 < prev then ((curr : ℚ) - (prev : ℚ)) / (prev : ℚ) else 0)
    xs.dropLast xs.tail

/-- The while loop of `predict_account_longevity`:
`while projected_activity > 10 and years_until_inactive < 10:
projected_activity *= (1 + avg_change); years_until_inactive += 1`.
Returns the final `(projected_activity, years_until_inactive)` pair. -/
def decayLoop (avg_change projected_activity : ℚ) (years_until_inactive : ℕ) : ℚ × ℕ :=
  if h : 10 < projected_activity ∧ years_until_inactive < 10 then
    decayLoop avg_change (projected_activity * (1 + avg_change)) (years_until_inactive + 1)
  else (projected_activity, years_until_inactive)
  termination_by 10 - years_until_inactive
  decreasing_by
    omega

/-- Return value of `predict_account_longevity`: one constructor for each
distinct string the Python function can produce; `ceaseIn y` stands for the
formatted message naming `y` years. -/
inductive Longevity where
  | insufficientData
  | sustainedActivity
  | tenPlusYears
  | ceaseIn (years : ℕ)
  deriving DecidableEq

/-- Python `predict_account_longevity`: guards on history length, averages
the fractional changes, and on a negative average simulates compounding
decay of the most recent value with `decayLoop`. -/
def predict_account_longevity (active_days_by_year : List ℕ) : Longevity :=
  if active_days_by_year.length < 2 then .insufficientData
  else
    let yearly_changes := yearlyChanges active_days_by_year
    let avg_change : ℚ := yearly_changes.sum / ((yearly_changes.length : ℚ))
    let current_activity : ℚ := (active_days_by_year.headD 0 : ℚ)
    if 0 ≤ avg_change then .sustainedActivity
    else
      let r := decayLoop avg_change current_activity 0
      if 10 ≤ r.2 then .tenPlusYears else .ceaseIn r.2

/-- Return value of `predict_milestone`: `unreachable` models the Python
sentinel `float('inf')`. -/
inductive MilestoneDays where
  | unreachable
  | days (d : ℚ)
  deriving DecidableEq

/-- Python `predict_milestone`: the non-positive-rate guard is checked first,
then the already-achieved case, then the extrapolated day count. -/
def predict_milestone (current_contributions milestone : ℤ)
    (lifetime_rate : ℚ) : MilestoneDays :=
  if lifetime_rate ≤ 0 then .unreachable
  else
    let remaining_contributions : ℤ := milestone - current_contributions
    if remaining_contributions ≤ 0 then .days 0
    else .days (roundTo ((remaining_contributions : ℚ) / lifetime_rate) 1)

/-! Helper lemmas about the streak loop. -/

lemma streakStep_fst_le_snd (s : ℕ × ℕ) (c : ℕ) :
    (streakStep s c).1 ≤ (streakStep s c).2 := by
  unfold streakStep
  split
  · exact le_max_right _ _
  · exact Nat.zero_le _

lemma foldl_streakStep_fst_le_snd (counts : List ℕ) :
    ∀ s : ℕ × ℕ, s.1 ≤ s.2 →
      (counts.foldl streakStep s).1 ≤ (counts.foldl streakStep s).2 := by
  induction counts with
  | nil => intro s h; simpa using h
  | cons c cs ih => intro s h; exact ih _ (streakStep_fst_le_snd s c)

lemma foldl_streakStep_zero (counts : List ℕ) (h : ∀ c ∈ counts, c = 0) :
    counts.foldl streakStep (0, 0) = (0, 0) := by
  induction counts with
  | nil => rfl
  | cons c cs ih =>
    have hc : c = 0 := h c (List.mem_cons_self c cs)
    have hcs : ∀ x ∈ cs, x = 0 := fun x hx => h x (List.mem_cons_of_mem c hx)
    rw [List.foldl_cons, show streakStep (0, 0) c = (0, 0) by simp [streakStep, hc]]
    exact ih hcs

lemma computeStreaks_append (cs : List ℕ) (c : ℕ) :
    computeStreaks (cs ++ [c]) = streakStep (computeStreaks cs) c := by
  simp [computeStreaks]

lemma trailingRun_append (cs : List ℕ) (c : ℕ) :
    trailingRun (cs ++ [c]) = if 0 < c then trailingRun cs + 1 else 0 := by
  unfold trailingRun
  rw [List.reverse_append]
  by_cases hc : 0 < c
  · simp [hc]
  · simp [hc]

lemma computeStreaks_fst_eq_trailingRun (counts : List ℕ) :
    (computeStreaks counts).1 = trailingRun counts := by
  induction counts using List.reverseRecOn with
  | nil => rfl
  | append_singleton cs c ih =>
    rw [computeStreaks_append, trailingRun_append]
    by_cases hc : 0 < c
    · simp [streakStep, hc, ih]
    · simp [streakStep, hc]

lemma process_current_streak (data : ContribData) :
    (process_contribution_data data).current_streak =
      (computeStreaks (dayCounts data.weeks.flatten)).1 := rfl

lemma process_longest_streak (data : ContribData) :
    (process_contribution_data data).longest_streak =
      (computeStreaks (dayCounts data.weeks.flatten)).2 := rfl

lemma process_highest (data : ContribData) :
    (process_contribution_data data).highest_contribution =
      highest_contribution data.weeks.flatten := rfl

/-- Data of concrete scenario 1 of the spec: five consecutive days with
counts 0, 3, 0, 5 and 2. -/
def scenario1 : ContribData :=
  ⟨[[⟨"2024-01-01", some 0⟩, ⟨"2024-01-02", some 3⟩, ⟨"2024-01-03", some 0⟩,
     ⟨"2024-01-04", some 5⟩, ⟨"2024-01-05", some 2⟩]], 10, 0⟩

/-- C3: for every well-formed payload the longest streak is at least the
current streak; an all-zero count series yields 0 for both; the current
streak equals the length of the maximal trailing run of strictly positive
counts; and the concrete series 0, 3, 0, 5, 2 gives current streak 2 and
longest streak 2. -/
theorem streaks_trailing_spec :
    (∀ data : ContribData,
      (process_contribution_data data).current_streak ≤
        (process_contribution_data data).longest_streak ∧
      ((∀ c ∈ dayCounts data.weeks.flatten, c = 0) →
        (process_contribution_data data).current_streak = 0 ∧
        (process_contribution_data data).longest_streak = 0) ∧
      (process_contribution_data data).current_streak =
        trailingRun (dayCounts data.weeks.flatten)) ∧
    (process_contribution_data scenario1).current_streak = 2 ∧
    (process_contribution_data scenario1).longest_streak = 2 := by
  refine ⟨fun data => ⟨?_, ?_, ?_⟩, by decide, by decide⟩
  · rw [process_current_streak, process_longest_streak]
    exact foldl_streakStep_fst_le_snd _ (0, 0) le_rfl
  · intro h
    rw [process_current_streak, process_longest_streak]
    unfold computeStreaks
    rw [foldl_streakStep_zero _ h]
    exact ⟨rfl, rfl⟩
  · rw [process_current_streak]
    exact computeStreaks_fst_eq_trailingRun _

/-- C3 witness: the all-zero branch of the theorem applied to a concrete
all-zero payload. -/
theorem streaks_trailing_spec_witness :
    (process_contribution_data ⟨[[⟨"2024-01-01", some 0⟩, ⟨"2024-01-02", some 0⟩]], 0, 0⟩).current_streak = 0 ∧
    (process_contribution_data ⟨[[⟨"2024-01-01", some 0⟩, ⟨"2024-01-02", some 0⟩]], 0, 0⟩).longest_streak = 0 :=
  (streaks_trailing_spec.1 _).2.1 (by decide)

/-- C10: the two streak statistics depend only on the ordered sequence of
per-day counts: payloads whose flattened day lists agree on their
`contributionCount` fields produce identical current and longest streaks,
whatever their date fields or week groupings. -/
theorem streaks_independent_of_dates (d1 d2 : ContribData)
    (h : d1.weeks.flatten.map Day.contributionCount =
         d2.weeks.flatten.map Day.contributionCount) :
    (process_contribution_data d1).current_streak =
      (process_contribution_data d2).current_streak ∧
    (process_contribution_data d1).longest_streak =
      (process_contribution_data d2).longest_streak := by
  have hc : dayCounts d1.weeks.flatten = dayCounts d2.weeks.flatten := by
    unfold dayCounts
    calc d1.weeks.flatten.map (fun d => d.contributionCount.getD 0)
        = (d1.weeks.flatten.map Day.contributionCount).map (fun o => o.getD 0) := by
          rw [List.map_map]
          rfl
      _ = (d2.weeks.flatten.map Day.contributionCount).map (fun o => o.getD 0) := by
          rw [h]
      _ = d2.weeks.flatten.map (fun d => d.contributionCount.getD 0) := by
          rw [List.map_map]
          rfl
  rw [process_current_streak, process_longest_streak, process_current_streak,
    process_longest_streak, hc]
  exact ⟨rfl, rfl⟩

/-- Payload A for the C10 witness: counts 1, 0, 4 with one set of dates. -/
def datesA : ContribData :=
  ⟨[[⟨"2024-01-01", some 1⟩, ⟨"2024-01-02", some 0⟩], [⟨"2024-01-03", some 4⟩]], 5, 0⟩

/-- Payload B for the C10 witness: the same counts 1, 0, 4 under different
dates and a different week grouping. -/
def datesB : ContribData :=
  ⟨[[⟨"1999-12-31", some 1⟩], [⟨"1970-05-05", some 0⟩, ⟨"2030-08-08", some 4⟩]], 7, 2⟩

/-- C10 witness: the theorem applied to two concrete payloads that differ
only in dates and week grouping. -/
theorem streaks_independent_of_dates_witness :
    (process_contribution_data datesA).current_streak =
      (process_contribution_data datesB).current_streak ∧
    (process_contribution_data datesA).longest_streak =
      (process_contribution_data datesB).longest_streak :=
  streaks_independent_of_dates datesA datesB (by decide)

/-- Copy of a payload in which every day record missing its count field is
replaced by a record with an explicit count of 0. -/
def fillZero (data : ContribData) : ContribData :=
  { data with
    weeks := data.weeks.map (fun w =>
      w.map (fun d => ⟨d.date, some (d.contributionCount.getD 0)⟩)) }

lemma dayCounts_fillZero (data : ContribData) :
    dayCounts (fillZero data).weeks.flatten = dayCounts data.weeks.flatten := by
  show dayCounts (data.weeks.map _).flatten = _
  rw [← List.map_flatten]
  unfold dayCounts
  rw [List.map_map]
  rfl

/-- C4 amended: the calculator is total on well-formed payloads; a missing
per-day count is read as 0 by the streak computation (replacing it with an
explicit 0 changes neither streak), but the highest-contribution statistic
is zeroed wholesale as soon as any record misses its count field, and it
equals the maximum per-day count when no record does and the series is
nonempty. -/
theorem missing_count_amended :
    ∀ data : ContribData,
      ((process_contribution_data data).current_streak =
        (process_contribution_data (fillZero data)).current_streak ∧
       (process_contribution_data data).longest_streak =
        (process_contribution_data (fillZero data)).longest_streak) ∧
      ((data.weeks.flatten.any fun d => d.contributionCount.isNone) = true →
        (process_contribution_data data).highest_contribution = 0) ∧
      (data.weeks.flatten ≠ [] →
        (∀ d ∈ data.weeks.flatten, d.contributionCount.isSome) →
        (process_contribution_data data).highest_contribution =
          (dayCounts data.weeks.flatten).foldl max 0) := by
  intro data
  refine ⟨⟨?_, ?_⟩, ?_, ?_⟩
  · rw [process_current_streak, process_current_streak, dayCounts_fillZero]
  · rw [process_longest_streak, process_longest_streak, dayCounts_fillZero]
  · intro h
    rw [process_highest]
    unfold highest_contribution
    simp [h]
  · intro hne hall
    rw [process_highest]
    unfold highest_contribution
    have h1 : data.weeks.flatten.isEmpty = false := by
      simpa [List.isEmpty_iff] using hne
    have h2 : (data.weeks.flatten.any fun d => d.contributionCount.isNone) = false := by
      rw [List.any_eq_false]
      intro d hd
      have hs := hall d hd
      cases hcc : d.contributionCount with
      | none => rw [hcc] at hs; simp at hs
      | some v => simp [hcc]
    simp [h1, h2, dayCounts]

/-- Payload with one day of count 5 followed by one day missing its count
field. -/
def missingCountData : ContribData :=
  ⟨[[⟨"2024-01-01", some 5⟩, ⟨"2024-01-02", none⟩]], 5, 0⟩

/-- C4 counterexample: on a payload holding a day with count 5 and a day
missing its count field, the highest-contribution statistic is reported as
0 rather than 5, even though the streak statistics still count the 5. -/
theorem missing_count_counterexample :
    (process_contribution_data missingCountData).highest_contribution = 0 ∧
    5 ∈ dayCounts missingCountData.weeks.flatten ∧
    (process_contribution_data missingCountData).longest_streak = 1 := by
  decide

/-- C4 witness: the amended theorem applied to the concrete payload with a
missing count field. -/
theorem missing_count_amended_witness :
    (process_contribution_data missingCountData).current_streak =
      (process_contribution_data (fillZero missingCountData)).current_streak ∧
    (process_contribution_data missingCountData).highest_contribution = 0 :=
  ⟨((missing_count_amended missingCountData).1).1,
   ((missing_count_amended missingCountData).2).1 (by decide)⟩

/-- C1 counterexample: with the target already reached but a zero rate, the
function returns the unreachable sentinel instead of 0, because the
non-positive-rate guard is checked first. -/
theorem milestone_reached_counterexample :
    predict_milestone 10 5 0 = MilestoneDays.unreachable ∧
    predict_milestone 10 5 0 ≠ MilestoneDays.days 0 := by
  decide

/-- C1 amended: if the target is at most the current total and the rate is
strictly positive, `predict_milestone` returns 0; for a rate that is zero
or negative the rate guard takes precedence and the unreachable sentinel is
returned even when the target is already reached. -/
theorem milestone_reached_amended (total target : ℤ) (rate : ℚ)
    (hr : 0 < rate) (ht : target ≤ total) :
    predict_milestone total target rate = MilestoneDays.days 0 := by
  have h1 : ¬ rate ≤ 0 := not_le.mpr hr
  have h2 : target - total ≤ 0 := sub_nonpos.mpr ht
  simp [predict_milestone, h1, h2]

/-- C1 witness: the amended theorem at total 5, target 3 and rate 1. -/
theorem milestone_reached_amended_witness :
    predict_milestone 5 3 1 = MilestoneDays.days 0 :=
  milestone_reached_amended 5 3 1 (by norm_num) (by norm_num)

/-- C6: for a rate that is zero or negative and a target strictly above the
current total, `predict_milestone` returns the unreachable sentinel. -/
theorem milestone_unreachable_sentinel (total target : ℤ) (rate : ℚ)
    (hr : rate ≤ 0) (ht : total < target) :
    predict_milestone total target rate = MilestoneDays.unreachable := by
  simp [predict_milestone, hr]

/-- C6 witness: the theorem at total 5, target 10 and rate -2. -/
theorem milestone_unreachable_sentinel_witness :
    predict_milestone 5 10 (-2) = MilestoneDays.unreachable :=
  milestone_unreachable_sentinel 5 10 (-2) (by norm_num) (by norm_num)

lemma roundTo_one_bounds {s : ℚ} (h0 : 0 ≤ s) (h1 : s ≤ 100) :
    0 ≤ roundTo s 1 ∧ roundTo s 1 ≤ 100 := by
  unfold roundTo
  constructor
  · apply div_nonneg _ (by norm_num : (0:ℚ) ≤ 10 ^ 1)
    have hz : (0:ℤ) ≤ round (s * 10 ^ 1) := by
      rw [round_eq]
      apply Int.le_floor.mpr
      push_cast
      nlinarith
    exact_mod_cast hz
  · rw [div_le_iff (by norm_num : (0:ℚ) < 10 ^ 1)]
    have hz : round (s * 10 ^ 1) ≤ 1000 := by
      rw [round_eq]
      have hle : s * 10 ^ 1 + 1 / 2 ≤ (2001 : ℚ) / 2 := by nlinarith
      calc ⌊s * 10 ^ 1 + 1 / 2⌋ ≤ ⌊(2001 : ℚ) / 2⌋ := Int.floor_mono hle
        _ = 1000 := by
          apply Int.floor_eq_iff.mpr
          constructor <;> norm_num
    have : ((round (s * 10 ^ 1) : ℤ) : ℚ) ≤ 1000 := by exact_mod_cast hz
    nlinarith

/-- C5 counterexample: with 2 active days out of 1 elapsed day the returned
consistency score is 200, outside [0, 100]; the code performs no clamping. -/
theorem consistency_clamp_counterexample :
    (predict_consistency 2 1).1 = 200 ∧ ¬ (predict_consistency 2 1).1 ≤ 100 := by
  norm_num [predict_consistency, roundTo, round_eq]

/-- C5 amended: the consistency score lies in [0, 100] whenever the active
days do not exceed the elapsed days (the code never clamps, so more active
days than elapsed days give a score above 100), and zero elapsed days
always yield score 0 with the no-activity classification. -/
theorem consistency_range_amended :
    ∀ active_days github_days : ℕ,
      (active_days ≤ github_days →
        0 ≤ (predict_consistency active_days github_days).1 ∧
        (predict_consistency active_days github_days).1 ≤ 100) ∧
      predict_consistency active_days 0 = (0, "No activity") := by
  intro a g
  constructor
  · intro hag
    by_cases hg : g = 0
    · subst hg
      constructor <;> norm_num [predict_consistency]
    · have hg0 : (0:ℚ) < (g : ℚ) := by
        exact_mod_cast Nat.pos_of_ne_zero hg
      have hs0 : 0 ≤ ((a : ℚ) / (g : ℚ)) * 100 := by positivity
      have hs1 : ((a : ℚ) / (g : ℚ)) * 100 ≤ 100 := by
        have hca : (a : ℚ) ≤ (g : ℚ) := by exact_mod_cast hag
        rw [div_mul_eq_mul_div, div_le_iff hg0]
        nlinarith
      unfold predict_consistency
      rw [if_neg hg]
      exact roundTo_one_bounds hs0 hs1
  · norm_num [predict_consistency]

/-- C5 witness: the amended theorem at 200 active days out of 365, and at
zero elapsed days. -/
theorem consistency_range_amended_witness :
    (0 ≤ (predict_consistency 200 365).1 ∧ (predict_consistency 200 365).1 ≤ 100) ∧
    predict_consistency 200 0 = (0, "No activity") :=
  ⟨(consistency_range_amended 200 365).1 (by norm_num),
   (consistency_range_amended 200 365).2⟩

/-- Unrounded consistency score, as formed inside `predict_consistency`. -/
def consistencyScore (active_days github_days : ℕ) : ℚ :=
  ((active_days : ℚ) / (github_days : ℚ)) * 100

/-- C8: with positive elapsed days the returned score is the consistency
score rounded to one decimal, the classification follows the closed lower
bounds 80, 50 and 25 on the score, and 200 active days out of 365 give
score 54.8 (the rational 274/5) with the regular classification. -/
theorem consistency_classification :
    (∀ active_days github_days : ℕ, 0 < github_days →
      (predict_consistency active_days github_days).1 =
        roundTo (consistencyScore active_days github_days) 1 ∧
      (80 ≤ consistencyScore active_days github_days ∧
          consistencyScore active_days github_days ≤ 100 →
        (predict_consistency active_days github_days).2 = "Highly consistent contributor") ∧
      (50 ≤ consistencyScore active_days github_days ∧
          consistencyScore active_days github_days < 80 →
        (predict_consistency active_days github_days).2 = "Regular contributor") ∧
      (25 ≤ consistencyScore active_days github_days ∧
          consistencyScore active_days github_days < 50 →
        (predict_consistency active_days github_days).2 = "Occasional contributor") ∧
      (0 ≤ consistencyScore active_days github_days ∧
          consistencyScore active_days github_days < 25 →
        (predict_consistency active_days github_days).2 = "Sporadic contributor")) ∧
    predict_consistency 200 365 = (274 / 5, "Regular contributor") := by
  constructor
  · intro a g hg
    have hgne : g ≠ 0 := Nat.pos_iff_ne_zero.mp hg
    unfold predict_consistency consistencyScore
    rw [if_neg hgne]
    refine ⟨rfl, ?_, ?_, ?_, ?_⟩
    · rintro ⟨h1, -⟩
      show (if _ ≥ 80 then _ else _) = _
      rw [if_pos h1]
    · rintro ⟨h1, h2⟩
      show (if _ ≥ 80 then _ else _) = _
      rw [if_neg (not_le.mpr h2), if_pos h1]
    · rintro ⟨h1, h2⟩
      show (if _ ≥ 80 then _ else _) = _
      rw [if_neg (not_le.mpr (by linarith)), if_neg (not_le.mpr h2), if_pos h1]
    · rintro ⟨-, h2⟩
      show (if _ ≥ 80 then _ else _) = _
      rw [if_neg (not_le.mpr (by linarith)), if_neg (not_le.mpr (by linarith)),
        if_neg (not_le.mpr h2)]
  · norm_num [predict_consistency, roundTo, round_eq]

/-- C8 witness: the theorem at 200 active days out of 365. -/
theorem consistency_classification_witness :
    (predict_consistency 200 365).1 = roundTo (consistencyScore 200 365) 1 ∧
    (predict_consistency 200 365).2 = "Regular contributor" :=
  ⟨(consistency_classification.1 200 365 (by norm_num)).1,
   (consistency_classification.1 200 365 (by norm_num)).2.2.1
     (by constructor <;> norm_num [consistencyScore])⟩

/-- C2 counterexample: with lifetime rate 1001/1000 and current rate
1002/1000 the trend is reported as increasing although both displayed rates
round to 1.00; the comparison is made before rounding, so the trend can
disagree with the two displayed rounded rates. -/
theorem trend_rounded_comparison_counterexample :
    (predict_long_term_activity 1001 1000 1002 1000).trend = "increasing" ∧
    (predict_long_term_activity 1001 1000 1002 1000).current_rate =
      (predict_long_term_activity 1001 1000 1002 1000).lifetime_rate := by
  constructor
  · norm_num [predict_long_term_activity]
  · norm_num [predict_long_term_activity, roundTo, round_eq]

/-- C2 amended: with positive elapsed days and active days the trend is
increasing, stable or decreasing according to the comparison of the exact
(unrounded) current rate with the exact lifetime rate, while the two
returned rate fields are rounded to 2 decimals; so the reported trend
follows the exact rates, not the displayed rounded ones. -/
theorem trend_unrounded_comparison :
    ∀ total_contributions github_days current_year_contributions active_days : ℕ,
      0 < github_days → 0 < active_days →
      (predict_long_term_activity total_contributions github_days
          current_year_contributions active_days).trend =
        (if (current_year_contributions : ℚ) / (active_days : ℚ) >
              (total_contributions : ℚ) / (github_days : ℚ) then "increasing"
         else if (current_year_contributions : ℚ) / (active_days : ℚ) =
              (total_contributions : ℚ) / (github_days : ℚ) then "stable"
         else "decreasing") ∧
      (predict_long_term_activity total_contributions github_days
          current_year_contributions active_days).lifetime_rate =
        roundTo ((total_contributions : ℚ) / (github_days : ℚ)) 2 ∧
      (predict_long_term_activity total_contributions github_days
          current_year_contributions active_days).current_rate =
        roundTo ((current_year_contributions : ℚ) / (active_days : ℚ)) 2 := by
  intro t g c a hg ha
  unfold predict_long_term_activity
  rw [if_neg (by omega : ¬ (g = 0 ∨ a = 0))]
  exact ⟨rfl, rfl, rfl⟩

/-- C2 witness: the amended theorem at 10 contributions over 5 days and 9
current-year contributions over 3 active days. -/
theorem trend_unrounded_comparison_witness :
    (predict_long_term_activity 10 5 9 3).trend =
      (if ((9 : ℕ) : ℚ) / ((3 : ℕ) : ℚ) > ((10 : ℕ) : ℚ) / ((5 : ℕ) : ℚ) then "increasing"
       else if ((9 : ℕ) : ℚ) / ((3 : ℕ) : ℚ) = ((10 : ℕ) : ℚ) / ((5 : ℕ) : ℚ) then "stable"
       else "decreasing") ∧
    (predict_long_term_activity 10 5 9 3).lifetime_rate =
      roundTo (((10 : ℕ) : ℚ) / ((5 : ℕ) : ℚ)) 2 ∧
    (predict_long_term_activity 10 5 9 3).current_rate =
      roundTo (((9 : ℕ) : ℚ) / ((3 : ℕ) : ℚ)) 2 :=
  trend_unrounded_comparison 10 5 9 3 (by norm_num) (by norm_num)

lemma predict_burnout_eq (xs : List ℕ) (h : ¬ xs.length < 2) :
    predict_burnout xs =
      (if avgPctChange xs < -20 then "Significant decrease in activity, potential burnout risk"
       else if avgPctChange xs < -5 then "Activity is gradually decreasing"
       else if avgPctChange xs > 20 then "Activity is significantly increasing"
       else if avgPctChange xs > 5 then "Activity is gradually increasing"
       else "Activity is stable") := by
  unfold predict_burnout
  rw [if_neg h]

/-- C7: with at least two periods, `predict_burnout` averages the percent
changes of consecutive pairs (a zero previous value giving a 0% change) and
classifies the average by the stated thresholds; the input 150, 100, 50
gives changes 50% and 100%, average 75%, classified as significantly
increasing. -/
theorem burnout_classification :
    (∀ xs : List ℕ, 2 ≤ xs.length →
      (avgPctChange xs < -20 →
        predict_burnout xs = "Significant decrease in activity, potential burnout risk") ∧
      (-20 ≤ avgPctChange xs ∧ avgPctChange xs < -5 →
        predict_burnout xs = "Activity is gradually decreasing") ∧
      (20 < avgPctChange xs →
        predict_burnout xs = "Activity is significantly increasing") ∧
      (5 < avgPctChange xs ∧ avgPctChange xs ≤ 20 →
        predict_burnout xs = "Activity is gradually increasing") ∧
      (-5 ≤ avgPctChange xs ∧ avgPctChange xs ≤ 5 →
        predict_burnout xs = "Activity is stable")) ∧
    pctChanges [150, 100, 50] = [50, 100] ∧
    avgPctChange [150, 100, 50] = 75 ∧
    predict_burnout [150, 100, 50] = "Activity is significantly increasing" := by
  refine ⟨?_, ?_, ?_, ?_⟩
  · intro xs hlen
    have h2 : ¬ xs.length < 2 := by omega
    refine ⟨?_, ?_, ?_, ?_, ?_⟩
    · intro h
      rw [predict_burnout_eq xs h2]
      split_ifs <;> first | rfl | linarith
    · rintro ⟨hA, hB⟩
      rw [predict_burnout_eq xs h2]
      split_ifs <;> first | rfl | linarith
    · intro h
      rw [predict_burnout_eq xs h2]
      split_ifs <;> first | rfl | linarith
    · rintro ⟨hA, hB⟩
      rw [predict_burnout_eq xs h2]
      split_ifs <;> first | rfl | linarith
    · rintro ⟨hA, hB⟩
      rw [predict_burnout_eq xs h2]
      split_ifs <;> first | rfl | linarith
  · norm_num [pctChanges]
  · norm_num [avgPctChange, pctChanges]
  · norm_num [predict_burnout, avgPctChange, pctChanges]

/-- C7 witness: the classification branch of the theorem applied to the
concrete input 150, 100, 50. -/
theorem burnout_classification_witness :
    predict_burnout [150, 100, 50] = "Activity is significantly increasing" :=
  (burnout_classification.1 [150, 100, 50] (by norm_num)).2.2.1
    (by norm_num [avgPctChange, pctChanges])

lemma decayLoop_spec (n : ℕ) :
    ∀ (avg_change projected : ℚ) (years : ℕ), 10 - years ≤ n →
      years ≤ (decayLoop avg_change projected years).2 ∧
      (decayLoop avg_change projected years).2 ≤ max years 10 ∧
      ((decayLoop avg_change projected years).1 ≤ 10 ∨
        10 ≤ (decayLoop avg_change projected years).2) := by
  induction n with
  | zero =>
    intro avg p years h
    have h10 : 10 ≤ years := by omega
    rw [decayLoop, dif_neg (fun hc => absurd hc.2 (by omega))]
    exact ⟨le_refl _, le_max_left _ _, Or.inr h10⟩
  | succ n ih =>
    intro avg p years h
    rw [decayLoop]
    by_cases hc : 10 < p ∧ years < 10
    · rw [dif_pos hc]
      have hrec := ih avg (p * (1 + avg)) (years + 1) (by omega)
      refine ⟨le_trans (Nat.le_succ years) hrec.1, ?_, hrec.2.2⟩
      calc (decayLoop avg (p * (1 + avg)) (years + 1)).2
          ≤ max (years + 1) 10 := hrec.2.1
        _ = 10 := Nat.max_eq_right (by omega)
        _ ≤ max years 10 := le_max_right _ _
    · rw [dif_neg hc]
      refine ⟨le_refl _, le_max_left _ _, ?_⟩
      rcases not_and_or.mp hc with h1 | h2
      · exact Or.inl (le_of_not_lt h1)
      · exact Or.inr (by omega)

lemma predict_account_longevity_eq (xs : List ℕ) (h : ¬ xs.length < 2) :
    predict_account_longevity xs =
      (if 0 ≤ (yearlyChanges xs).sum / ((yearlyChanges xs).length : ℚ)
       then Longevity.sustainedActivity
       else if 10 ≤ (decayLoop ((yearlyChanges xs).sum / ((yearlyChanges xs).length : ℚ))
                      ((xs.headD 0 : ℕ) : ℚ) 0).2
            then Longevity.tenPlusYears
            else Longevity.ceaseIn
                   (decayLoop ((yearlyChanges xs).sum / ((yearlyChanges xs).length : ℚ))
                      ((xs.headD 0 : ℕ) : ℚ) 0).2) := by
  unfold predict_account_longevity
  rw [if_neg h]

/-- C9: the decay simulation of `predict_account_longevity` always stops:
started from year counter 0 it performs at most 10 iterations, and it stops
only once the projected value is at or below the floor of 10 or the 10-year
cap is hit; consequently the function always returns one of its four
outcomes, with any cease-in estimate at most 10 years. -/
theorem longevity_loop_bound :
    (∀ avg_change projected : ℚ,
      (decayLoop avg_change projected 0).2 ≤ 10 ∧
      ((decayLoop avg_change projected 0).1 ≤ 10 ∨
        (decayLoop avg_change projected 0).2 = 10)) ∧
    (∀ xs : List ℕ,
      predict_account_longevity xs = Longevity.insufficientData ∨
      predict_account_longevity xs = Longevity.sustainedActivity ∨
      predict_account_longevity xs = Longevity.tenPlusYears ∨
      ∃ y, y ≤ 10 ∧ predict_account_longevity xs = Longevity.ceaseIn y) := by
  have hmain : ∀ (a p : ℚ), (decayLoop a p 0).2 ≤ 10 ∧
      ((decayLoop a p 0).1 ≤ 10 ∨ 10 ≤ (decayLoop a p 0).2) := by
    intro a p
    have h := decayLoop_spec 10 a p 0 (by omega)
    exact ⟨le_trans h.2.1 (le_of_eq (Nat.max_eq_right (by omega))), h.2.2⟩
  constructor
  · intro a p
    refine ⟨(hmain a p).1, ?_⟩
    rcases (hmain a p).2 with h1 | h2
    · exact Or.inl h1
    · exact Or.inr (le_antisymm (hmain a p).1 h2)
  · intro xs
    by_cases h1 : xs.length < 2
    · left
      unfold predict_account_longevity
      rw [if_pos h1]
    · rw [predict_account_longevity_eq xs h1]
      by_cases h2 : 0 ≤ (yearlyChanges xs).sum / ((yearlyChanges xs).length : ℚ)
      · rw [if_pos h2]
        exact Or.inr (Or.inl rfl)
      · rw [if_neg h2]
        by_cases h3 : 10 ≤ (decayLoop ((yearlyChanges xs).sum / ((yearlyChanges xs).length : ℚ))
            ((xs.headD 0 : ℕ) : ℚ) 0).2
        · rw [if_pos h3]
          exact Or.inr (Or.inr (Or.inl rfl))
        · rw [if_neg h3]
          exact Or.inr (Or.inr (Or.inr ⟨_, (hmain _ _).1, rfl⟩))
